import Mathlib

/-!
Verification of the MoniSens controller core against its source.

Shallow embedding of the Rust sources:
  src/service/device.rs, src/service/db_model.rs, src/query/mod.rs,
  src/webserver/model/contract.rs, src/module/model.rs,
  src/controller/interface/service.rs, src/webserver/controller/service.rs.

Rust `i32` values are modelled as `Int` with explicit 32-bit wrap where
overflow matters (the `AtomicI32` id counter).  `HashMap` is modelled as an
association list with insert-or-replace semantics; the claims proved below
are membership / lookup statements that do not depend on iteration order.
Fallible Rust functions returning `Result` are modelled with `Except`.
-/

namespace Monisens

/-- From src/controller (model): per-device lifecycle tag.
`DeviceInitState` has exactly the two states `Device` and `Sensors`. -/
inductive DeviceInitState
  | Device
  | Sensors
deriving DecidableEq, Repr

/-- From src/controller (model): the eight dynamic sensor field types. -/
inductive SensorDataType
  | Int16
  | Int32
  | Int64
  | Float32
  | Float64
  | Timestamp
  | String
  | JSON
deriving DecidableEq, Repr

/-- From src/service/device.rs `sensor_data_type_from_udt`: maps a postgres
`udt_name` to the corresponding `SensorDataType`, `none` when unknown. -/
def sensor_data_type_from_udt (udt_name : String) : Option SensorDataType :=
  if udt_name = "int2" then some .Int16
  else if udt_name = "int4" then some .Int32
  else if udt_name = "int8" then some .Int64
  else if udt_name = "float4" then some .Float32
  else if udt_name = "float8" then some .Float64
  else if udt_name = "timestamp" then some .Timestamp
  else if udt_name = "text" then some .String
  else if udt_name = "jsonb" then some .JSON
  else none

/-- From src/module/error.rs (via src/module/model.rs): driver status errors. -/
inductive ComError
  | ConnectionError
  | InvalidArgument
  | Unknown
deriving DecidableEq, Repr

/-- From src/module/model.rs `convert_com_error`: converts the one-byte driver
status into `Result<(), ComError>`.  The byte is modelled as a `Nat` (the
match is on the values 0, 1, 2 and a catch-all, so no wrap is involved). -/
def convert_com_error (err : Nat) : Except ComError Unit :=
  match err with
  | 0 => .ok ()
  | 1 => .error .ConnectionError
  | 2 => .error .InvalidArgument
  | _ => .error .Unknown

/-! ## Webserver contract (src/webserver/model/contract.rs) -/

/-- From src/webserver/model/contract.rs `SortDir` (wire enum). -/
inductive Contract.SortDir
  | ASC
  | DESC
deriving DecidableEq, Repr

/-- From src/webserver/model/contract.rs `Sort`: `field` carries the
`validate(length(min = 1))` attribute, `order` is unvalidated. -/
structure Contract.Sort where
  field : String
  order : Contract.SortDir
deriving DecidableEq, Repr

/-- From src/webserver/model/contract.rs `SensorData` (wire value union).
Integer payloads are `Int`; the `chrono::NaiveDateTime` payload is modelled as
an `Int` epoch offset and the `f32`/`f64` payloads as `Rat` — no claim proved
here computes with these payloads, they only ride along. -/
inductive Contract.SensorData
  | Int16 (v : Int)
  | Int32 (v : Int)
  | Int64 (v : Int)
  | Float32 (v : Rat)
  | Float64 (v : Rat)
  | Timestamp (v : Int)
  | String (v : String)
  | JSON (v : String)
deriving DecidableEq, Repr

/-- From src/webserver/model/contract.rs `GetSensorDataRequest` with its
`validator` attributes noted field by field. -/
structure Contract.GetSensorDataRequest where
  /-- `validate(range(min = 1))` -/
  device_id : Int
  /-- `validate(length(min = 1))` -/
  sensor : String
  /-- `validate(length(min = 1))` -/
  fields : List String
  /-- nested `validate` -/
  sort : Contract.Sort
  /-- unvalidated -/
  fromv : Option Contract.SensorData
  /-- `validate(range(max = 1000))`, checked only when present -/
  limit : Option Int
deriving DecidableEq, Repr

/-- From the `#[derive(Validate)]` attributes on `GetSensorDataRequest` in
src/webserver/model/contract.rs: `device_id` must be ≥ 1, `sensor` and
`fields` must have length ≥ 1, the nested `sort.field` must have length ≥ 1,
and `limit`, when present, must be ≤ 1000.  `fromv` is not validated. -/
def Contract.GetSensorDataRequest.validate (r : Contract.GetSensorDataRequest) : Bool :=
  (1 ≤ r.device_id) && (1 ≤ r.sensor.length) && (1 ≤ r.fields.length) &&
    (1 ≤ r.sort.field.length) &&
    (match r.limit with
     | none => true
     | some l => l ≤ 1000)

/-! ## Monitor configuration round trip
(src/service/db_model.rs and src/controller model types) -/

/-- From src/controller model: `SortDir` on the controller side. -/
inductive Ctrl.SortDir
  | ASC
  | DESC
deriving DecidableEq, Repr

/-- From src/service/db_model.rs `SortDir` (database side, serde-serialized). -/
inductive Dbm.SortDir
  | ASC
  | DESC
deriving DecidableEq, Repr

/-- From src/service/db_model.rs `impl From<ctrl::SortDir> for SortDir`. -/
def Dbm.sortDirFromCtrl : Ctrl.SortDir → Dbm.SortDir
  | .ASC => .ASC
  | .DESC => .DESC

/-- From src/service/db_model.rs `impl From<SortDir> for ctrl::SortDir`. -/
def Ctrl.sortDirFromDbm : Dbm.SortDir → Ctrl.SortDir
  | .ASC => .ASC
  | .DESC => .DESC

/-- From src/controller model: `MonitorLogConf`. -/
structure Ctrl.MonitorLogConf where
  fields : List String
  sort_field : String
  sort_direction : Ctrl.SortDir
  limit : Int
deriving DecidableEq, Repr

/-- From src/controller model: `MonitorLineConf`. -/
structure Ctrl.MonitorLineConf where
  x_field : String
  y_field : String
  limit : Int
deriving DecidableEq, Repr

/-- From src/controller model: `MonitorTypeConf`, the tagged union stored as
the JSON `config` document. -/
inductive Ctrl.MonitorTypeConf
  | Log (v : Ctrl.MonitorLogConf)
  | Line (v : Ctrl.MonitorLineConf)
deriving DecidableEq, Repr

/-- From src/service/db_model.rs `MonitorLogConf`. -/
structure Dbm.MonitorLogConf where
  fields : List String
  sort_field : String
  sort_direction : Dbm.SortDir
  limit : Int
deriving DecidableEq, Repr

/-- From src/service/db_model.rs `MonitorLineConf`. -/
structure Dbm.MonitorLineConf where
  x_field : String
  y_field : String
  limit : Int
deriving DecidableEq, Repr

/-- From src/service/db_model.rs `MonitorTypeConf`. -/
inductive Dbm.MonitorTypeConf
  | Log (v : Dbm.MonitorLogConf)
  | Line (v : Dbm.MonitorLineConf)
deriving DecidableEq, Repr

/-- From src/service/db_model.rs `impl From<ctrl::MonitorTypeConf> for
MonitorTypeConf`: field-by-field copy, converting the sort direction. -/
def Dbm.monitorTypeConfFromCtrl : Ctrl.MonitorTypeConf → Dbm.MonitorTypeConf
  | .Log v =>
      .Log { fields := v.fields, sort_field := v.sort_field,
             sort_direction := Dbm.sortDirFromCtrl v.sort_direction,
             limit := v.limit }
  | .Line v =>
      .Line { x_field := v.x_field, y_field := v.y_field, limit := v.limit }

/-- From src/service/db_model.rs `impl From<MonitorTypeConf> for
ctrl::MonitorTypeConf`: the inverse direction, same field-by-field copy. -/
def Ctrl.monitorTypeConfFromDbm : Dbm.MonitorTypeConf → Ctrl.MonitorTypeConf
  | .Log v =>
      .Log { fields := v.fields, sort_field := v.sort_field,
             sort_direction := Ctrl.sortDirFromDbm v.sort_direction,
             limit := v.limit }
  | .Line v =>
      .Line { x_field := v.x_field, y_field := v.y_field, limit := v.limit }

/-! ## Association-list model of `HashMap`

`std::collections::HashMap` is modelled as an association list with
insert-or-replace semantics.  Lookup takes the first binding; `mapInsert`
replaces in place, so keys stay unique when built through it. -/

/-- `HashMap::insert`: replace the binding in place, or append it. -/
def mapInsert {β : Type} (k : String) (v : β) : List (String × β) → List (String × β)
  | [] => [(k, v)]
  | (k', v') :: rest =>
      if k = k' then (k, v) :: rest else (k', v') :: mapInsert k v rest

/-- `HashMap::insert` over integer keys (`DeviceID`). -/
def mapInsertI {β : Type} (k : Int) (v : β) : List (Int × β) → List (Int × β)
  | [] => [(k, v)]
  | (k', v') :: rest =>
      if k = k' then (k, v) :: rest else (k', v') :: mapInsertI k v rest

/-- `HashMap::get`. -/
def mapLookup {β : Type} (k : String) : List (String × β) → Option β
  | [] => none
  | (k', v') :: rest => if k = k' then some v' else mapLookup k rest

/-- `HashMap::get` over integer keys. -/
def mapLookupI {β : Type} (k : Int) : List (Int × β) → Option β
  | [] => none
  | (k', v') :: rest => if k = k' then some v' else mapLookupI k rest

/-- `HashMap::remove`. -/
def mapRemove {β : Type} (k : String) : List (String × β) → List (String × β)
  | [] => []
  | (k', v') :: rest =>
      if k = k' then rest else (k', v') :: mapRemove k rest

/-- `HashMap::remove` over integer keys. -/
def mapRemoveI {β : Type} (k : Int) : List (Int × β) → List (Int × β)
  | [] => []
  | (k', v') :: rest =>
      if k = k' then rest else (k', v') :: mapRemoveI k rest

/-! ## Device registry (src/service/device.rs) -/

/-- From src/controller model: one sensor field (`SensorDataEntry`). -/
structure SensorDataEntry where
  name : String
  typ : SensorDataType
deriving DecidableEq, Repr

/-- From src/controller model: `Sensor` — a name (the sensor's table name)
plus the map from column name to typed entry. -/
structure Sensor where
  name : String
  data_map : List (String × SensorDataEntry)
deriving DecidableEq, Repr

/-- `std::path::PathBuf` modelled as its list of components. -/
abbrev Path := List String

/-- `PathBuf::from_str`: split a database path string into components. -/
def pathOfString (s : String) : Path := s.splitOn "/"

/-- From src/service/device.rs `Device`: the in-memory registry entry.
`PathBuf` fields are modelled as component lists. -/
structure Device where
  name : String
  display_name : String
  module_dir : Path
  data_dir : Path
  init_state : DeviceInitState
  sensor_map : List (String × Sensor)
deriving DecidableEq, Repr

/-- From src/service/device.rs `DeviceError`. -/
inductive DeviceError
  | DeviceSensorsUnknownDevice
  | SensorDataUnknownType (table : String) (column : String)
  | DeviceNotFound (id : Int)
  | DeviceNotConfigured (id : Int)
deriving DecidableEq, Repr

/-- From src/service/db_model.rs `DeviceInitState` (database enum). -/
inductive Dbm.DeviceInitState
  | Device
  | Sensors
deriving DecidableEq, Repr

/-- From src/service/db_model.rs `impl From<&DeviceInitState> for
ctrl::DeviceInitState`. -/
def deviceInitStateFromDbm : Dbm.DeviceInitState → DeviceInitState
  | .Device => .Device
  | .Sensors => .Sensors

/-- From src/service/db_model.rs `Device` (row of the `device` table). -/
structure Dbm.Device where
  id : Int
  name : String
  display_name : String
  module_dir : String
  data_dir : String
  init_state : Dbm.DeviceInitState
deriving DecidableEq, Repr

/-- From src/service/db_model.rs `DeviceSensor` (row of `device_sensor`). -/
structure Dbm.DeviceSensor where
  device_id : Int
  sensor_name : String
  sensor_table_name : String
deriving DecidableEq, Repr

/-- From src/service/db_model.rs `ColumnType` (row of
`information_schema.columns`). -/
structure Dbm.ColumnType where
  table_name : String
  column_name : String
  udt_name : String
deriving DecidableEq, Repr

/-- From src/service/device.rs `DeviceManager`: `last_id` models the
`AtomicI32` counter as an `Int` kept in `i32` range by explicit wrapping,
`device_map` the registry, and `data_dir` the process data root that
`check_and_return_base_dir` resolves once at construction. -/
structure DeviceManager where
  last_id : Int
  device_map : List (Int × Device)
  data_dir : Path
deriving DecidableEq, Repr

/-- From `DeviceManager::new`'s first loop: the registry built from the
`device` rows (each row becomes an entry with an empty sensor map). -/
def initDeviceMap (devices : List Dbm.Device) : List (Int × Device) :=
  devices.foldl
    (fun m d =>
      mapInsertI d.id
        { name := d.name, display_name := d.display_name,
          module_dir := pathOfString d.module_dir,
          data_dir := pathOfString d.data_dir,
          init_state := deviceInitStateFromDbm d.init_state,
          sensor_map := [] } m)
    []

/-- From `DeviceManager::new`'s first loop: `last_id` starts at 0 and is
bumped to every strictly larger row id. -/
def newLastId (devices : List Dbm.Device) : Int :=
  devices.foldl (fun acc d => if d.id > acc then d.id else acc) 0

/-- From `DeviceManager::new`'s second loop over `sensor_types`: build the
map `sensor table name → Sensor`, failing with `SensorDataUnknownType`
(carrying the row's table and column names) on the first unknown
`udt_name`. -/
def initSensors (sensor_types : List Dbm.ColumnType)
    (sensors_res : List (String × Sensor)) :
    Except DeviceError (List (String × Sensor)) :=
  match sensor_types with
  | [] => .ok sensors_res
  | ct :: rest =>
      let sensor := (mapLookup ct.table_name sensors_res).getD
        { name := ct.table_name, data_map := [] }
      match sensor_data_type_from_udt ct.udt_name with
      | none => .error (.SensorDataUnknownType ct.table_name ct.column_name)
      | some typ =>
          initSensors rest
            (mapInsert ct.table_name
              { sensor with
                data_map := mapInsert ct.column_name
                  { name := ct.column_name, typ := typ } sensor.data_map }
              sensors_res)

/-- From `DeviceManager::new`'s third loop over `device_sensors`: look the
device up (failing with `DeviceSensorsUnknownDevice` when absent), move the
sensor from `sensors_res` into the device's sensor map under its
`sensor_name`. -/
def mapSensorsToDevices (device_sensors : List Dbm.DeviceSensor)
    (device_map : List (Int × Device)) (sensors_res : List (String × Sensor)) :
    Except DeviceError (List (Int × Device)) :=
  match device_sensors with
  | [] => .ok device_map
  | ds :: rest =>
      match mapLookupI ds.device_id device_map with
      | none => .error .DeviceSensorsUnknownDevice
      | some device =>
          match mapLookup ds.sensor_table_name sensors_res with
          | none => mapSensorsToDevices rest device_map sensors_res
          | some sensor =>
              mapSensorsToDevices rest
                (mapInsertI ds.device_id
                  { device with
                    sensor_map := mapInsert ds.sensor_name sensor device.sensor_map }
                  device_map)
                (mapRemove ds.sensor_table_name sensors_res)

/-- From src/service/device.rs `DeviceManager::new`: builds the registry from
the rows, in source order — device loop (also computing `last_id`), sensor
loop (can fail with `SensorDataUnknownType`), association loop (can fail
with `DeviceSensorsUnknownDevice`).  `base_dir` stands for the data root
that `check_and_return_base_dir` resolves from the environment. -/
def DeviceManager.new (devices : List Dbm.Device)
    (device_sensors : List Dbm.DeviceSensor)
    (sensor_types : List Dbm.ColumnType) (base_dir : Path) :
    Except DeviceError DeviceManager :=
  let device_map := initDeviceMap devices
  match initSensors sensor_types [] with
  | .error e => .error e
  | .ok sensors_res =>
      match mapSensorsToDevices device_sensors device_map sensors_res with
      | .error e => .error e
      | .ok device_map =>
          .ok { last_id := newLastId devices, device_map := device_map,
                data_dir := base_dir }

/-- Two's-complement wrap of an integer into the `i32` range. -/
def wrap32 (x : Int) : Int := (x + 2 ^ 31) % 2 ^ 32 - 2 ^ 31

/-- From src/service/device.rs `DeviceManager::inc_last_id`:
`last_id.fetch_add(1, SeqCst)` (wrapping on `i32`), returning
`DeviceID::new(prev_last_id + 1)`, which coincides with the stored value. -/
def DeviceManager.inc_last_id (dm : DeviceManager) : Int × DeviceManager :=
  let idNew := wrap32 (dm.last_id + 1)
  (idNew, { dm with last_id := idNew })

/-- A sequence of `n` successive allocations through `inc_last_id`, returning
the allocated ids in order. -/
def allocIds (dm : DeviceManager) : Nat → List Int × DeviceManager
  | 0 => ([], dm)
  | n + 1 =>
      let (id, dm') := dm.inc_last_id
      let (ids, dm'') := allocIds dm' n
      (id :: ids, dm'')

/-- From src/controller model: `DeviceInfo` (id + display name). -/
structure DeviceInfo where
  id : Int
  display_name : String
deriving DecidableEq, Repr

/-- From src/service/device.rs `DeviceManager::get_device_info_list`: the
registry entries whose `init_state` is `Sensors`, projected to
`DeviceInfo`. -/
def DeviceManager.get_device_info_list (dm : DeviceManager) : List DeviceInfo :=
  dm.device_map.filterMap
    (fun p =>
      if p.2.init_state = .Sensors then
        some { id := p.1, display_name := p.2.display_name }
      else none)

/-- From src/service/device.rs `DeviceManager::get_device`, reduced to the
lookup it performs. -/
def DeviceManager.get_device (dm : DeviceManager) (id : Int) :
    Except DeviceError Device :=
  match mapLookupI id dm.device_map with
  | some d => .ok d
  | none => .error (.DeviceNotFound id)

/-- From src/service/device.rs `DeviceManager::get_device_init_state`. -/
def DeviceManager.get_device_init_state (dm : DeviceManager) (id : Int) :
    Except DeviceError DeviceInitState :=
  match dm.get_device id with
  | .ok d => .ok d.init_state
  | .error e => .error e

/-! ## Filesystem and service-level operations

src/service/device.rs performs the directory and file work through
`tokio::fs`; the filesystem is modelled as the list of existing paths under
the data root.  IO failures are injected through explicit flags so that the
error paths of the source can be exercised. -/

/-- From src/service/device.rs: the platform module-file extension
(`.so` under `cfg(target_os = "linux")`). -/
def MODULE_FILE_EXT : String := ".so"

/-- From src/service/device.rs `build_device_dir_name`:
`<id>-<name>`, one path component. -/
def build_device_dir_name (id : Int) (name : String) : String :=
  toString id ++ "-" ++ name

/-- Modelled from the spec: the service error kinds of §7 that the embedded
operations can produce (the service/mod.rs error enum itself is not under
src/).  `Device` wraps the `DeviceError`s of src/service/device.rs. -/
inductive ServiceError
  | IllegalState
  | Io
  | Storage
  | AlreadyExists
  | Device (e : DeviceError)
deriving DecidableEq, Repr

/-- `tokio::fs::create_dir` under fault injection: the underlying IO can be
made to fail; creating an already existing directory fails with
`AlreadyExists`. -/
def fsCreateDir (fs : List Path) (p : Path) (ioFail : Bool) :
    Except ServiceError (List Path) :=
  if ioFail then .error .Io
  else if p ∈ fs then .error .AlreadyExists
  else .ok (p :: fs)

/-- From src/service/device.rs `create_file`: opening the path first — an
existing file is `AlreadyExists` (never clobber) — then creating and copying,
which is where an injected IO failure hits. -/
def fsCreateFile (fs : List Path) (p : Path) (ioFail : Bool) :
    Except ServiceError (List Path) :=
  if p ∈ fs then .error .AlreadyExists
  else if ioFail then .error .Io
  else .ok (p :: fs)

/-- `tokio::fs::remove_dir_all`: removes the directory and everything below
it (every path it is a prefix of); fails when the directory is absent or on
an injected IO failure. -/
def fsRemoveDirAll (fs : List Path) (p : Path) (ioFail : Bool) :
    Except ServiceError (List Path) :=
  if ioFail then .error .Io
  else if p ∈ fs then .ok (fs.filter (fun q => !(p.isPrefixOf q)))
  else .error .Io

/-- From src/controller model: `DeviceInitData`, the data
`start_device_init` returns. -/
structure DeviceInitData where
  id : Int
  module_file : Path
  data_dir : Path
  full_data_dir : Path
  module_dir : Path
  init_state : DeviceInitState
deriving DecidableEq, Repr

/-- From src/service/device.rs `DeviceManager::start_device_init`: allocate
the id (unconditionally, first), create `<id>-<name>`, its `module` and
`data` subdirectories, write the module file, insert the registry entry and
return the init data.  Faithful to the source, the function performs no
cleanup when a step fails: it returns the error with the partial state.
`io0`–`io3` inject an IO failure into the respective step (directory,
module directory, data directory, module file), in source order. -/
def DeviceManager.start_device_init (dm : DeviceManager) (fs : List Path)
    (name display_name : String) (io0 io1 io2 io3 : Bool) :
    Except ServiceError DeviceInitData × DeviceManager × List Path :=
  let (id, dm) := dm.inc_last_id
  let dir_name := build_device_dir_name id name
  match fsCreateDir fs (dm.data_dir ++ [dir_name]) io0 with
  | .error e => (.error e, dm, fs)
  | .ok fs =>
    match fsCreateDir fs (dm.data_dir ++ [dir_name, "module"]) io1 with
    | .error e => (.error e, dm, fs)
    | .ok fs =>
      match fsCreateDir fs (dm.data_dir ++ [dir_name, "data"]) io2 with
      | .error e => (.error e, dm, fs)
      | .ok fs =>
        match fsCreateFile fs (dm.data_dir ++ [dir_name, "module", "lib" ++ MODULE_FILE_EXT])
            io3 with
        | .error e => (.error e, dm, fs)
        | .ok fs =>
          let device : Device :=
            { name := name, display_name := display_name,
              module_dir := [dir_name, "module"], data_dir := [dir_name, "data"],
              init_state := .Device, sensor_map := [] }
          (.ok { id := id,
                 module_file := dm.data_dir ++ [dir_name, "module", "lib" ++ MODULE_FILE_EXT],
                 data_dir := [dir_name, "data"],
                 full_data_dir := dm.data_dir ++ [dir_name, "data"],
                 module_dir := [dir_name, "module"],
                 init_state := .Device },
           { dm with device_map := mapInsertI id device dm.device_map }, fs)

/-- From src/service/device.rs `DeviceManager::delete_device`: look the
device up (`DeviceNotFound` when absent), `remove_dir_all` its directory,
then drop the registry entry.  A failing removal leaves registry and map
untouched, faithful to the `?` in the source. -/
def DeviceManager.delete_device (dm : DeviceManager) (fs : List Path) (id : Int)
    (ioFail : Bool) : Except ServiceError Unit × DeviceManager × List Path :=
  match mapLookupI id dm.device_map with
  | none => (.error (.Device (.DeviceNotFound id)), dm, fs)
  | some device =>
      match fsRemoveDirAll fs (dm.data_dir ++ [build_device_dir_name id device.name]) ioFail with
      | .error e => (.error e, dm, fs)
      | .ok fs' => (.ok (), { dm with device_map := mapRemoveI id dm.device_map }, fs')

/-- The externally visible state the service operations act on: the
in-memory registry (`DeviceManager`), the filesystem under the data root,
and the ids of the rows of the `device` table. -/
structure ServiceState where
  dm : DeviceManager
  fs : List Path
  db_device_ids : List Int
deriving DecidableEq, Repr

/-- Modelled from the spec: `Service::start_device_init` (service/mod.rs is
not under src/).  §4.7: it drives `DeviceManager::start_device_init`
(embedded above from the source) together with the
`INSERT INTO device(..., init_state='DEVICE')` row insert
(`io4` injects a database failure into that insert), and on failure at any
step runs the best-effort reverse-order cleanup — remove the registry
entry, delete the row, remove the directory tree — while the id slot
itself is not reclaimed. -/
def Service.start_device_init (st : ServiceState) (name display_name : String)
    (io0 io1 io2 io3 io4 : Bool) : Except ServiceError DeviceInitData × ServiceState :=
  let id := wrap32 (st.dm.last_id + 1)
  let dirFull := st.dm.data_dir ++ [build_device_dir_name id name]
  match st.dm.start_device_init st.fs name display_name io0 io1 io2 io3 with
  | (.error e, dm', fs') =>
      (.error e,
       { dm := { dm' with device_map := mapRemoveI id dm'.device_map },
         fs := fs'.filter (fun p => !(dirFull.isPrefixOf p)),
         db_device_ids := st.db_device_ids.filter (fun x => x ≠ id) })
  | (.ok data, dm', fs') =>
      if io4 then
        (.error .Storage,
         { dm := { dm' with device_map := mapRemoveI id dm'.device_map },
           fs := fs'.filter (fun p => !(dirFull.isPrefixOf p)),
           db_device_ids := st.db_device_ids.filter (fun x => x ≠ id) })
      else
        (.ok data, { dm := dm', fs := fs', db_device_ids := id :: st.db_device_ids })

/-- Modelled from the spec: `Service::interrupt_device_init` (service/mod.rs
is not under src/).  §4.7 and the IService doc (src/controller/interface/
service.rs): it must ensure `init_state = Device` — otherwise the error is
`IllegalState` and nothing changes — and only then delete the `device` row,
remove the directory tree and drop the registry entry, the latter two through
`DeviceManager::delete_device` embedded above from the source. -/
def Service.interrupt_device_init (st : ServiceState) (id : Int) (ioFail : Bool) :
    Except ServiceError Unit × ServiceState :=
  match st.dm.get_device_init_state id with
  | .error e => (.error (.Device e), st)
  | .ok .Sensors => (.error .IllegalState, st)
  | .ok .Device =>
      let db' := st.db_device_ids.filter (· ≠ id)
      match st.dm.delete_device st.fs id ioFail with
      | (.error e, dm', fs') =>
          (.error e, { dm := dm', fs := fs', db_device_ids := db' })
      | (.ok _, dm', fs') =>
          (.ok (), { dm := dm', fs := fs', db_device_ids := db' })

/-! ## Query builder (src/query/mod.rs) -/

/-- From src/service/db_model.rs `SensorDataTypeValue`: the dynamic value
union bound into queries.  Floats are carried as `Rat` and the
`chrono::NaiveDateTime` as an `Int` offset — the embedded query code never
computes with the payloads, it only forwards them as bound arguments. -/
inductive Dbm.SensorDataTypeValue
  | Int16 (v : Int)
  | Int32 (v : Int)
  | Int64 (v : Int)
  | Float32 (v : Rat)
  | Float64 (v : Rat)
  | Timestamp (v : Int)
  | String (v : String)
  | JSON (v : String)
deriving DecidableEq, Repr

/-- Modelled from the spec: `Part` of src/query/sqlizer.rs (not under src/).
From its uses in src/query/mod.rs, a part is either a plain SQL string (what
`table` and `columns` store via `PredType::String` with no arguments) or a
registered predicate — an `Rc<dyn Sqlizer>` as handed to `whereq` — whose
`sql()` renders to the given text with the given bound arguments. -/
inductive Part
  | str (s : String)
  | pred (sql : String) (args : List Dbm.SensorDataTypeValue)
deriving DecidableEq, Repr

/-- `Sqlizer::sql` for the parts above: a plain string renders to itself
with no arguments, a predicate to its text and arguments. -/
def Part.sql : Part → String × List Dbm.SensorDataTypeValue
  | .str s => (s, [])
  | .pred s args => (s, args)

/-- Modelled from the spec: `Builder` of src/query/builder.rs (not under
src/).  From its uses in src/query/mod.rs it is a keyed store of statement
parts: `set` stores a single part under a key, `extend` appends a part to
the key's list, `get` retrieves the single part and `get_vec` the list. -/
structure Builder where
  parts : List (String × List Part)
deriving DecidableEq, Repr

/-- `Builder::new`. -/
def Builder.new : Builder := ⟨[]⟩

/-- `Builder::set`: store exactly one part under the key. -/
def Builder.set (b : Builder) (k : String) (p : Part) : Builder :=
  ⟨mapInsert k [p] b.parts⟩

/-- `Builder::extend`: append a part to the key's list. -/
def Builder.extend (b : Builder) (k : String) (p : Part) : Builder :=
  ⟨mapInsert k ((mapLookup k b.parts).getD [] ++ [p]) b.parts⟩

/-- `Builder::get`. -/
def Builder.get (b : Builder) (k : String) : Option Part :=
  (mapLookup k b.parts).bind List.head?

/-- `Builder::get_vec`. -/
def Builder.get_vec (b : Builder) (k : String) : Option (List Part) :=
  mapLookup k b.parts

/-- From src/query/mod.rs `StatementBuilder` (also its alias
`SelectBuilder`). -/
structure StatementBuilder where
  b : Builder
deriving DecidableEq, Repr

/-- From src/query/mod.rs `StatementBuilder::new`. -/
def StatementBuilder.new : StatementBuilder := ⟨Builder.new⟩

/-- From src/query/mod.rs `StatementBuilder::table`: sets the single
`"table"` part to the plain table name. -/
def StatementBuilder.table (sb : StatementBuilder) (t : String) : StatementBuilder :=
  ⟨sb.b.set "table" (.str t)⟩

/-- From src/query/mod.rs `StatementBuilder::columns`: extends the
`"columns"` parts with the plain column name. -/
def StatementBuilder.columns (sb : StatementBuilder) (c : String) : StatementBuilder :=
  ⟨sb.b.extend "columns" (.str c)⟩

/-- From src/query/mod.rs `StatementBuilder::whereq`: extends the `"where"`
parts with the given predicate. -/
def StatementBuilder.whereq (sb : StatementBuilder) (p : Part) : StatementBuilder :=
  ⟨sb.b.extend "where" p⟩

/-- From src/query/mod.rs `append_sql`: render the parts joined by `sep`,
skipping parts whose SQL is empty, the separator keyed on the index, and
the bound arguments collected in order. -/
def appendSqlAux (parts : List Part) (i : Nat) (sep : String) (s : String)
    (args : List Dbm.SensorDataTypeValue) : String × List Dbm.SensorDataTypeValue :=
  match parts with
  | [] => (s, args)
  | p :: rest =>
      let (psql, pargs) := p.sql
      if psql.length = 0 then appendSqlAux rest (i + 1) sep s args
      else
        appendSqlAux rest (i + 1) sep ((if i > 0 then s ++ sep else s) ++ psql)
          (args ++ pargs)

/-- From src/query/mod.rs `SelectBuilder::sql_raw`: emit `SELECT `, the
`"columns"` parts joined by `, `, then ` FROM ` and the `"table"` part.
These are the only keys the emitter reads. -/
def StatementBuilder.sql_raw (sb : StatementBuilder) :
    String × List Dbm.SensorDataTypeValue :=
  let s := "SELECT "
  let (s, args) :=
    match sb.b.get_vec "columns" with
    | some columns =>
        if columns.length > 0 then appendSqlAux columns 0 ", " s [] else (s, [])
    | none => (s, [])
  match sb.b.get "table" with
  | some fromPart => appendSqlAux [fromPart] 0 ", " (s ++ " FROM ") args
  | none => (s, args)

/-- Modelled from the spec: `sq::gt` of query/integration/isqlx (not under
src/) — the parameterized strict greater-than predicate that
`SensorDataFilter::apply` registers for a `from` bound (§4.4: all WHERE
predicates are parameterized, the value travels as a bound argument). -/
def Isqlx.gt (col : String) (val : Dbm.SensorDataTypeValue) : Part :=
  .pred (col ++ " > ?") [val]

/-- Modelled from the spec: `sq::lt`, symmetrically for a `to` bound. -/
def Isqlx.lt (col : String) (val : Dbm.SensorDataTypeValue) : Part :=
  .pred (col ++ " < ?") [val]

/-! ## Helper lemmas (shared) -/

/-- Inserting under one key leaves lookups of any other key unchanged. -/
theorem mapLookup_mapInsert_ne {β : Type} {k k' : String} (v : β)
    (m : List (String × β)) (h : k ≠ k') :
    mapLookup k (mapInsert k' v m) = mapLookup k m := by
  induction m with
  | nil => simp [mapInsert, mapLookup, h]
  | cons hd tl ih =>
      obtain ⟨k₀, v₀⟩ := hd
      by_cases hk : k' = k₀
      · subst hk
        simp [mapInsert, mapLookup, h]
      · simp only [mapInsert, if_neg hk]
        simp [mapLookup, ih]

/-- Integer-keyed analogue of `mapLookup_mapInsert_ne`. -/
theorem mapLookupI_mapInsertI_ne {β : Type} {k k' : Int} (v : β)
    (m : List (Int × β)) (h : k ≠ k') :
    mapLookupI k (mapInsertI k' v m) = mapLookupI k m := by
  induction m with
  | nil => simp [mapInsertI, mapLookupI, h]
  | cons hd tl ih =>
      obtain ⟨k₀, v₀⟩ := hd
      by_cases hk : k' = k₀
      · subst hk
        simp [mapInsertI, mapLookupI, h]
      · simp only [mapInsertI, if_neg hk]
        simp [mapLookupI, ih]

/-- Removing an absent key is a no-op. -/
theorem mapRemoveI_eq_of_lookup_none {β : Type} {k : Int} (m : List (Int × β))
    (h : mapLookupI k m = none) : mapRemoveI k m = m := by
  induction m with
  | nil => simp [mapRemoveI]
  | cons hd tl ih =>
      obtain ⟨k₀, v₀⟩ := hd
      by_cases hk : k = k₀
      · simp [mapLookupI, hk] at h
      · simp [mapRemoveI, hk]
        exact ih (by simpa [mapLookupI, hk] using h)

/-- Removing a key just inserted over an absent key restores the map. -/
theorem mapRemoveI_mapInsertI_self {β : Type} {k : Int} (v : β)
    (m : List (Int × β)) (h : mapLookupI k m = none) :
    mapRemoveI k (mapInsertI k v m) = m := by
  induction m with
  | nil => simp [mapInsertI, mapRemoveI]
  | cons hd tl ih =>
      obtain ⟨k₀, v₀⟩ := hd
      by_cases hk : k = k₀
      · simp [mapLookupI, hk] at h
      · simp [mapInsertI, hk, mapRemoveI]
        exact ih (by simpa [mapLookupI, hk] using h)

/-- A non-empty string is exactly one of length at least 1. -/
theorem string_one_le_length_iff (s : String) : 1 ≤ s.length ↔ s ≠ "" := by
  cases s with
  | mk data =>
    constructor
    · intro h he
      rw [he] at h
      simp [String.length] at h
    · intro h
      have hd : data ≠ [] := by
        intro hd
        apply h
        rw [hd]
      simpa [String.length, Nat.succ_le_iff] using List.length_pos.mpr hd

/-! ## Claim theorems -/

/-- C7: `convert_com_error` realises the driver ABI status contract — byte 0
is Ok, 1 is ConnectionError, 2 is InvalidArgument, every other byte is
Unknown, and no byte other than 0 yields Ok. -/
theorem C7_convert_com_error_abi :
    convert_com_error 0 = .ok () ∧
    convert_com_error 1 = .error .ConnectionError ∧
    convert_com_error 2 = .error .InvalidArgument ∧
    (∀ b : Nat, b ≠ 0 → b ≠ 1 → b ≠ 2 → convert_com_error b = .error .Unknown) ∧
    (∀ b : Nat, convert_com_error b = .ok () ↔ b = 0) := by
  refine ⟨rfl, rfl, rfl, ?_, ?_⟩
  · intro b h0 h1 h2
    match b with
    | 0 => exact absurd rfl h0
    | 1 => exact absurd rfl h1
    | 2 => exact absurd rfl h2
    | n + 3 => rfl
  · intro b
    constructor
    · intro h
      match b with
      | 0 => rfl
      | 1 => exact absurd h (by simp [convert_com_error])
      | 2 => exact absurd h (by simp [convert_com_error])
      | n + 3 => exact absurd h (by simp [convert_com_error])
    · rintro rfl
      rfl

/-- C7 witness: the theorem applied at the concrete byte 7. -/
theorem C7_convert_com_error_abi_witness :
    convert_com_error 7 = .error .Unknown ∧ (convert_com_error 7 = .ok () ↔ 7 = 0) :=
  ⟨C7_convert_com_error_abi.2.2.2.1 7 (by decide) (by decide) (by decide),
   C7_convert_com_error_abi.2.2.2.2 7⟩

/-- C9: converting a controller monitor configuration to the database model
and back is the identity, for both the `Log` and the `Line` variant with all
their fields, so a saved config is returned structurally unchanged. -/
theorem C9_monitor_conf_round_trip (v : Ctrl.MonitorTypeConf) :
    Ctrl.monitorTypeConfFromDbm (Dbm.monitorTypeConfFromCtrl v) = v := by
  cases v with
  | Log c =>
      obtain ⟨fields, sf, sd, lim⟩ := c
      cases sd <;> rfl
  | Line c => rfl

/-- C6 counterexample: a request satisfying every condition the claim lists —
device_id ≥ 1, non-empty `fields`, non-empty `sort.field`, no `limit` — is
nevertheless rejected by the validator, because the derive also requires a
non-empty `sensor`, which the claim's "if and only if" omits. -/
theorem C6_counterexample :
    (({ device_id := 1, sensor := "", fields := ["v"],
        sort := { field := "ts", order := .ASC }, fromv := none,
        limit := none } : Contract.GetSensorDataRequest).validate = false) ∧
    (1 : Int) ≤ 1 ∧ (["v"] : List String) ≠ [] ∧ ("ts" : String) ≠ "" := by
  decide

/-- C6 (amended): validation passes iff device_id ≥ 1, `sensor` is
non-empty, `fields` is non-empty, `sort.field` is non-empty, and `limit`,
when present, is at most 1000; in particular limit 1000 is accepted and
limit 1001 rejected. -/
theorem C6_get_sensor_data_validation :
    (∀ r : Contract.GetSensorDataRequest,
        r.validate = true ↔
          (1 ≤ r.device_id ∧ r.sensor ≠ "" ∧ r.fields ≠ [] ∧ r.sort.field ≠ "" ∧
            ∀ l ∈ r.limit, l ≤ 1000)) ∧
    (({ device_id := 1, sensor := "temp", fields := ["v"],
        sort := { field := "ts", order := .ASC }, fromv := none,
        limit := some 1000 } : Contract.GetSensorDataRequest).validate = true) ∧
    (({ device_id := 1, sensor := "temp", fields := ["v"],
        sort := { field := "ts", order := .ASC }, fromv := none,
        limit := some 1001 } : Contract.GetSensorDataRequest).validate = false) := by
  refine ⟨?_, by decide, by decide⟩
  intro r
  have hs := string_one_le_length_iff r.sensor
  have hf := string_one_le_length_iff r.sort.field
  have hl : 1 ≤ r.fields.length ↔ r.fields ≠ [] := by
    rw [Nat.one_le_iff_ne_zero]
    simp
  cases hlim : r.limit with
  | none =>
      simp [Contract.GetSensorDataRequest.validate, hlim, Bool.and_eq_true,
        decide_eq_true_eq, hs, hf, hl, and_assoc]
  | some l =>
      simp [Contract.GetSensorDataRequest.validate, hlim, Bool.and_eq_true,
        decide_eq_true_eq, hs, hf, hl, and_assoc]

/-- C3: the embedded `SelectBuilder::sql_raw` reads only the `"columns"` and
`"table"` keys, so registering a where-part through `whereq` never changes
the emitted SQL; on the get_sensor_data shape — table, one column, the
`from` predicate `ts > ?` that `SensorDataFilter::apply` would register —
the produced statement is exactly `SELECT value FROM sensor_data_1`: no
WHERE clause and the bound argument dropped, although the claim (and §4.4)
say the registered predicate appears. -/
theorem C3_whereq_dropped :
    (∀ (sb : StatementBuilder) (p : Part), (sb.whereq p).sql_raw = sb.sql_raw) ∧
    ((((StatementBuilder.new.table "sensor_data_1").columns "value").whereq
        (Isqlx.gt "ts" (.Int64 5))).sql_raw
      = ("SELECT value FROM sensor_data_1", [])) := by
  constructor
  · intro sb p
    have hc : Builder.get_vec (sb.whereq p).b "columns" = Builder.get_vec sb.b "columns" := by
      simp [StatementBuilder.whereq, Builder.extend, Builder.get_vec]
      exact mapLookup_mapInsert_ne _ _ (by decide)
    have ht : Builder.get (sb.whereq p).b "table" = Builder.get sb.b "table" := by
      simp [StatementBuilder.whereq, Builder.extend, Builder.get]
      rw [mapLookup_mapInsert_ne _ _ (by decide)]
    simp [StatementBuilder.sql_raw, hc, ht]
  · decide

/-- C8: `get_device_info_list` returns exactly the registered devices whose
init state is `Sensors` — every returned entry comes from a `Sensors`-state
registry entry with matching id and display name, every `Sensors`-state
entry appears, and an id all of whose registry entries are in `Device` state
never appears. -/
theorem C8_device_info_list (dm : DeviceManager) :
    (∀ info ∈ dm.get_device_info_list,
        ∃ p ∈ dm.device_map, p.1 = info.id ∧ p.2.init_state = .Sensors ∧
          p.2.display_name = info.display_name) ∧
    (∀ p ∈ dm.device_map, p.2.init_state = .Sensors →
        ({ id := p.1, display_name := p.2.display_name } : DeviceInfo)
          ∈ dm.get_device_info_list) ∧
    (∀ i : Int, (∀ p ∈ dm.device_map, p.1 = i → p.2.init_state = .Device) →
        ∀ info ∈ dm.get_device_info_list, info.id ≠ i) := by
  refine ⟨?_, ?_, ?_⟩
  · intro info hinfo
    rw [DeviceManager.get_device_info_list, List.mem_filterMap] at hinfo
    obtain ⟨p, hp, hsome⟩ := hinfo
    by_cases hst : p.2.init_state = .Sensors
    · rw [if_pos hst] at hsome
      refine ⟨p, hp, ?_, hst, ?_⟩
      · exact congrArg DeviceInfo.id (Option.some.inj hsome)
      · exact congrArg DeviceInfo.display_name (Option.some.inj hsome)
    · rw [if_neg hst] at hsome
      exact absurd hsome (by simp)
  · intro p hp hst
    rw [DeviceManager.get_device_info_list, List.mem_filterMap]
    exact ⟨p, hp, by rw [if_pos hst]⟩
  · intro i hall info hinfo hid
    rw [DeviceManager.get_device_info_list, List.mem_filterMap] at hinfo
    obtain ⟨p, hp, hsome⟩ := hinfo
    by_cases hst : p.2.init_state = .Sensors
    · rw [if_pos hst] at hsome
      have h1 : p.1 = i := by
        have h2 := congrArg DeviceInfo.id (Option.some.inj hsome)
        simp only at h2
        rw [h2, hid]
      have := hall p hp h1
      rw [this] at hst
      exact absurd hst (by decide)
    · rw [if_neg hst] at hsome
      exact absurd hsome (by simp)

/-- C8 witness: on a concrete registry with one configured and one
unconfigured device, the configured one appears in the list. -/
theorem C8_device_info_list_witness :
    ({ id := 1, display_name := "A" } : DeviceInfo) ∈
      DeviceManager.get_device_info_list
        { last_id := 2,
          device_map := [(1, ⟨"a", "A", [], [], .Sensors, []⟩),
                         (2, ⟨"b", "B", [], [], .Device, []⟩)],
          data_dir := [] } :=
  (C8_device_info_list _).2.1 (1, ⟨"a", "A", [], [], .Sensors, []⟩)
    (by simp) rfl

/-- C1 (spec-modelled service layer over the embedded registry): when the
device's init state is `Sensors`, `interrupt_device_init` fails with
`IllegalState` and the whole state — registry entry, its sensor map, the
directory tree, the `device` rows — is returned exactly unchanged. -/
theorem C1_interrupt_after_sensors (st : ServiceState) (id : Int) (d : Device)
    (hlook : mapLookupI id st.dm.device_map = some d)
    (hstate : d.init_state = .Sensors) (ioFail : Bool) :
    Service.interrupt_device_init st id ioFail = (.error .IllegalState, st) := by
  simp [Service.interrupt_device_init, DeviceManager.get_device_init_state,
    DeviceManager.get_device, hlook, hstate]

/-- C1 witness: the theorem applied at a concrete one-device state in
`Sensors` state. -/
theorem C1_interrupt_after_sensors_witness :
    Service.interrupt_device_init
      { dm := { last_id := 1,
                device_map := [(1, ⟨"a", "A", ["1-a", "module"], ["1-a", "data"],
                                   .Sensors, []⟩)],
                data_dir := ["root", "device"] },
        fs := [["root", "device", "1-a"]], db_device_ids := [1] } 1 false
      = (.error .IllegalState,
         { dm := { last_id := 1,
                   device_map := [(1, ⟨"a", "A", ["1-a", "module"], ["1-a", "data"],
                                      .Sensors, []⟩)],
                   data_dir := ["root", "device"] },
           fs := [["root", "device", "1-a"]], db_device_ids := [1] }) :=
  C1_interrupt_after_sensors _ 1 ⟨"a", "A", ["1-a", "module"], ["1-a", "data"], .Sensors, []⟩
    (by decide) rfl false

/-- Rows with a known `udt_name` never fail, so the first unknown row
determines `initSensors`' error, whatever the accumulated map is. -/
theorem initSensors_unknown (pre rest : List Dbm.ColumnType) (ct : Dbm.ColumnType)
    (hpre : ∀ c ∈ pre, (sensor_data_type_from_udt c.udt_name).isSome = true)
    (hct : sensor_data_type_from_udt ct.udt_name = none) :
    ∀ m, initSensors (pre ++ ct :: rest) m =
      .error (.SensorDataUnknownType ct.table_name ct.column_name) := by
  induction pre with
  | nil =>
      intro m
      simp [initSensors, hct]
  | cons c pre' ih =>
      intro m
      obtain ⟨typ, htyp⟩ := Option.isSome_iff_exists.mp (hpre c (by simp))
      simp only [List.cons_append, initSensors, htyp]
      exact ih (fun c hc => hpre c (by simp [hc])) _

/-- C5: `sensor_data_type_from_udt` inverts the FieldType→db-type table
exactly — the eight known `udt_name`s map to their `SensorDataType`s, every
other string maps to nothing, and `DeviceManager::new` turns the first
unknown row into `SensorDataUnknownType` carrying that row's table and
column names. -/
theorem C5_udt_introspection :
    (sensor_data_type_from_udt "int2" = some .Int16 ∧
     sensor_data_type_from_udt "int4" = some .Int32 ∧
     sensor_data_type_from_udt "int8" = some .Int64 ∧
     sensor_data_type_from_udt "float4" = some .Float32 ∧
     sensor_data_type_from_udt "float8" = some .Float64 ∧
     sensor_data_type_from_udt "timestamp" = some .Timestamp ∧
     sensor_data_type_from_udt "text" = some .String ∧
     sensor_data_type_from_udt "jsonb" = some .JSON) ∧
    (∀ u : String,
        u ∉ (["int2", "int4", "int8", "float4", "float8", "timestamp", "text",
              "jsonb"] : List String) →
        sensor_data_type_from_udt u = none) ∧
    (∀ (devices : List Dbm.Device) (dss : List Dbm.DeviceSensor)
        (pre rest : List Dbm.ColumnType) (ct : Dbm.ColumnType) (base : Path),
        (∀ c ∈ pre, (sensor_data_type_from_udt c.udt_name).isSome = true) →
        sensor_data_type_from_udt ct.udt_name = none →
        DeviceManager.new devices dss (pre ++ ct :: rest) base =
          .error (.SensorDataUnknownType ct.table_name ct.column_name)) := by
  refine ⟨by decide, ?_, ?_⟩
  · intro u hu
    simp only [List.mem_cons, List.not_mem_nil, or_false, not_or] at hu
    obtain ⟨h1, h2, h3, h4, h5, h6, h7, h8⟩ := hu
    simp [sensor_data_type_from_udt, h1, h2, h3, h4, h5, h6, h7, h8]
  · intro devices dss pre rest ct base hpre hct
    have h := initSensors_unknown pre rest ct hpre hct []
    simp [DeviceManager.new, h]

/-- C5 witness: a single row of unsupported type `uuid` aborts startup with
its table and column names. -/
theorem C5_udt_introspection_witness :
    DeviceManager.new [] [] [⟨"tbl", "col", "uuid"⟩] [] =
      .error (.SensorDataUnknownType "tbl" "col") :=
  C5_udt_introspection.2.2 [] [] [] [] ⟨"tbl", "col", "uuid"⟩ []
    (by simp) (by decide)

/-- Absence of a device id in the accumulator is preserved by the
registry-building fold. -/
theorem mapLookupI_foldl_mapInsertI_none {β : Type} (q : Int) (f : Dbm.Device → β)
    (devices : List Dbm.Device) :
    ∀ m : List (Int × β), mapLookupI q m = none →
      q ∉ devices.map (fun d => d.id) →
      mapLookupI q (devices.foldl (fun m d => mapInsertI d.id (f d) m) m) = none := by
  induction devices with
  | nil =>
      intro m hm _
      simpa using hm
  | cons d rest ih =>
      intro m hm hq
      simp only [List.map_cons, List.mem_cons, not_or] at hq
      obtain ⟨hqd, hqrest⟩ := hq
      simp only [List.foldl_cons]
      refine ih _ ?_ (by simpa using hqrest)
      rw [mapLookupI_mapInsertI_ne _ _ hqd]
      exact hm

/-- A `device_sensor` row whose device id is absent from the registry makes
the association loop fail with `DeviceSensorsUnknownDevice`, wherever the
row sits in the list. -/
theorem mapSensorsToDevices_orphan (ds : Dbm.DeviceSensor) :
    ∀ (dss : List Dbm.DeviceSensor) (dm : List (Int × Device))
      (sres : List (String × Sensor)),
      ds ∈ dss → mapLookupI ds.device_id dm = none →
      mapSensorsToDevices dss dm sres = .error .DeviceSensorsUnknownDevice := by
  intro dss
  induction dss with
  | nil =>
      intro dm sres h _
      exact absurd h (List.not_mem_nil ds)
  | cons d' rest ih =>
      intro dm sres hmem hnone
      cases hl : mapLookupI d'.device_id dm with
      | none => simp [mapSensorsToDevices, hl]
      | some dev =>
          have hne : ds.device_id ≠ d'.device_id := by
            intro he
            rw [← he, hnone] at hl
            cases hl
          have hmem' : ds ∈ rest := by
            rcases List.mem_cons.mp hmem with h | h
            · exact absurd (congrArg Dbm.DeviceSensor.device_id h) hne
            · exact h
          cases hs : mapLookup d'.sensor_table_name sres with
          | none =>
              simp only [mapSensorsToDevices, hl, hs]
              exact ih _ _ hmem' hnone
          | some sensor =>
              simp only [mapSensorsToDevices, hl, hs]
              refine ih _ _ hmem' ?_
              rw [mapLookupI_mapInsertI_ne _ _ hne]
              exact hnone

/-- C10: a `device_sensor` row whose `device_id` matches no `device` row
makes `DeviceManager::new` return `DeviceSensorsUnknownDevice` (assuming the
sensor-type phase, which runs first, succeeds): the orphan aborts startup
and no manager is constructed. -/
theorem C10_orphan_device_sensor (devices : List Dbm.Device)
    (dss : List Dbm.DeviceSensor) (sensor_types : List Dbm.ColumnType)
    (base : Path) (ds : Dbm.DeviceSensor) (sres : List (String × Sensor))
    (hmem : ds ∈ dss) (horphan : ds.device_id ∉ devices.map (fun d => d.id))
    (hsensors : initSensors sensor_types [] = .ok sres) :
    DeviceManager.new devices dss sensor_types base =
      .error .DeviceSensorsUnknownDevice := by
  have h1 : mapLookupI ds.device_id (initDeviceMap devices) = none :=
    mapLookupI_foldl_mapInsertI_none _ _ devices [] rfl horphan
  have h2 := mapSensorsToDevices_orphan ds dss (initDeviceMap devices) sres hmem h1
  simp [DeviceManager.new, hsensors, initDeviceMap] at h2 ⊢
  simp [h2]

/-- C10 witness: one orphan sensor row against an empty device table. -/
theorem C10_orphan_device_sensor_witness :
    DeviceManager.new [] [⟨7, "s", "t"⟩] [] [] =
      .error .DeviceSensorsUnknownDevice :=
  C10_orphan_device_sensor [] [⟨7, "s", "t"⟩] [] [] ⟨7, "s", "t"⟩ []
    (by simp) (by simp) rfl

/-- The max-fold of `DeviceManager::new` dominates its start value and every
processed row id. -/
theorem newLastId_fold_ge (devices : List Dbm.Device) :
    ∀ acc : Int,
      (acc ≤ devices.foldl (fun acc d => if d.id > acc then d.id else acc) acc) ∧
      (∀ d ∈ devices,
        d.id ≤ devices.foldl (fun acc d => if d.id > acc then d.id else acc) acc) := by
  induction devices with
  | nil =>
      intro acc
      exact ⟨le_refl _, by simp⟩
  | cons d rest ih =>
      intro acc
      simp only [List.foldl_cons]
      obtain ⟨ha, hb⟩ := ih (if d.id > acc then d.id else acc)
      have h1 : acc ≤ if d.id > acc then d.id else acc := by split <;> omega
      have h2 : d.id ≤ if d.id > acc then d.id else acc := by split <;> omega
      refine ⟨le_trans h1 ha, ?_⟩
      intro d' hd'
      rcases List.mem_cons.mp hd' with h | h
      · subst h
        exact le_trans h2 ha
      · exact hb d' h

/-- The max-fold's value is either its start value or one of the row ids. -/
theorem newLastId_fold_mem (devices : List Dbm.Device) :
    ∀ acc : Int,
      devices.foldl (fun acc d => if d.id > acc then d.id else acc) acc = acc ∨
      ∃ d ∈ devices,
        devices.foldl (fun acc d => if d.id > acc then d.id else acc) acc = d.id := by
  induction devices with
  | nil =>
      intro acc
      exact Or.inl rfl
  | cons d rest ih =>
      intro acc
      simp only [List.foldl_cons]
      rcases ih (if d.id > acc then d.id else acc) with h | ⟨d', hd', he⟩
      · by_cases hc : d.id > acc
        · right
          exact ⟨d, by simp, by rw [h, if_pos hc]⟩
        · left
          rw [h, if_neg hc]
      · right
        exact ⟨d', by simp [hd'], he⟩

/-- `wrap32` is the identity on the `i32` range. -/
theorem wrap32_eq_self {x : Int} (h1 : -(2 ^ 31) ≤ x) (h2 : x < 2 ^ 31) :
    wrap32 x = x := by
  have h3 : (0 : Int) ≤ x + 2 ^ 31 := by omega
  have h4 : x + 2 ^ 31 < 2 ^ 32 := by omega
  rw [wrap32, Int.emod_eq_of_lt h3 h4]
  omega

/-- Without overflow, `n` allocations return the ids
`last_id + 1, …, last_id + n` in order. -/
theorem allocIds_spec (n : Nat) :
    ∀ (s : Int) (dmap : List (Int × Device)) (ddir : Path),
      0 ≤ s → s + n < 2 ^ 31 →
      (allocIds ⟨s, dmap, ddir⟩ n).1 = (List.range n).map (fun k : Nat => s + 1 + (k : Int)) := by
  induction n with
  | zero =>
      intro s dmap ddir _ _
      simp [allocIds]
  | succ n ih =>
      intro s dmap ddir h0 hn
      have hid : wrap32 (s + 1) = s + 1 := wrap32_eq_self (by omega) (by omega)
      have hrec := ih (s + 1) dmap ddir (by omega) (by omega)
      simp only [allocIds, DeviceManager.inc_last_id, hid]
      cases hres : allocIds ⟨s + 1, dmap, ddir⟩ n with
      | mk ids dm2 =>
          rw [hres] at hrec
          simp only at hrec
          simp only [hres]
          rw [hrec, List.range_succ_eq_map, List.map_cons, List.map_map]
          congr 1
          · omega
          · refine List.map_congr_left ?_
            intro a _
            simp only [Function.comp_apply]
            push_cast
            omega

/-- C4: `new` starts `last_id` at the maximum row id (0 when none, and the
fold dominates every row id), an allocation under no overflow returns
`last_id + 1` and stores it, and any overflow-free allocation sequence
yields strictly increasing, pairwise-distinct ids. -/
theorem C4_last_id_allocation :
    (∀ devices : List Dbm.Device, ∀ d ∈ devices, d.id ≤ newLastId devices) ∧
    newLastId [] = 0 ∧
    (∀ devices : List Dbm.Device, devices ≠ [] → (∀ d ∈ devices, 0 ≤ d.id) →
        ∃ d ∈ devices, newLastId devices = d.id) ∧
    (∀ dm : DeviceManager, -(2 ^ 31) ≤ dm.last_id → dm.last_id + 1 < 2 ^ 31 →
        dm.inc_last_id = (dm.last_id + 1, { dm with last_id := dm.last_id + 1 })) ∧
    (∀ (dm : DeviceManager) (n : Nat), 0 ≤ dm.last_id → dm.last_id + n < 2 ^ 31 →
        (allocIds dm n).1.Pairwise (· < ·) ∧ (allocIds dm n).1.Pairwise (· ≠ ·)) := by
  refine ⟨?_, rfl, ?_, ?_, ?_⟩
  · intro devices
    exact (newLastId_fold_ge devices 0).2
  · intro devices hne hpos
    rcases newLastId_fold_mem devices 0 with h | h
    · obtain ⟨d0, hd0⟩ := List.exists_mem_of_ne_nil devices hne
      have hle := (newLastId_fold_ge devices 0).2 d0 hd0
      have hge := hpos d0 hd0
      refine ⟨d0, hd0, ?_⟩
      unfold newLastId
      omega
    · exact h
  · intro dm h1 h2
    simp [DeviceManager.inc_last_id, wrap32_eq_self (by omega : -(2 ^ 31) ≤ dm.last_id + 1) h2]
  · intro dm n h0 hn
    obtain ⟨s, dmap, ddir⟩ := dm
    have h0' : (0 : Int) ≤ s := h0
    have hn' : s + (n : Int) < 2 ^ 31 := hn
    rw [allocIds_spec n s dmap ddir h0' hn']
    constructor
    · exact List.Pairwise.map _
        (fun a b h => by
          have h' : a < b := h
          show s + 1 + (a : Int) < s + 1 + (b : Int)
          omega)
        (List.pairwise_lt_range n)
    · exact List.Pairwise.map _
        (fun a b h => by
          have h' : a < b := h
          show s + 1 + (a : Int) ≠ s + 1 + (b : Int)
          omega)
        (List.pairwise_lt_range n)

/-- C4 witness: the theorem applied at concrete rows, a concrete counter
state and a run of three allocations. -/
theorem C4_last_id_allocation_witness :
    ((⟨3, "a", "A", "m", "d", .Device⟩ : Dbm.Device).id ≤
        newLastId [⟨3, "a", "A", "m", "d", .Device⟩]) ∧
    (∃ d ∈ [(⟨3, "a", "A", "m", "d", .Device⟩ : Dbm.Device)],
        newLastId [⟨3, "a", "A", "m", "d", .Device⟩] = d.id) ∧
    DeviceManager.inc_last_id ⟨5, [], []⟩ = (6, ⟨6, [], []⟩) ∧
    (allocIds ⟨0, [], []⟩ 3).1.Pairwise (· < ·) :=
  ⟨C4_last_id_allocation.1 _ _ (by simp),
   C4_last_id_allocation.2.2.1 _ (by simp) (by decide),
   C4_last_id_allocation.2.2.2.1 _ (by decide) (by decide),
   (C4_last_id_allocation.2.2.2.2 _ 3 (by decide) (by decide)).1⟩

/-- C2 (spec-modelled rollback around the embedded registry step):
whenever `start_device_init` returns an error — whichever of its five
fallible steps failed — none of its listed effects persist: the final state
has the same registry map (in particular no entry for the allocated id),
the same `device` rows and the same filesystem as the initial one, and only
the consumed id slot differs (`last_id` has advanced and is not reclaimed).
The hypotheses say the allocated id is fresh: nothing lives under the new
device directory, no row and no registry entry carry the id. -/
theorem C2_start_device_init_atomic (st : ServiceState) (name display_name : String)
    (io0 io1 io2 io3 io4 : Bool) (e : ServiceError)
    (hfs : ∀ p ∈ st.fs,
      ¬ (st.dm.data_dir ++ [build_device_dir_name (wrap32 (st.dm.last_id + 1)) name]) <+: p)
    (hdb : wrap32 (st.dm.last_id + 1) ∉ st.db_device_ids)
    (hreg : mapLookupI (wrap32 (st.dm.last_id + 1)) st.dm.device_map = none)
    (hres : (Service.start_device_init st name display_name io0 io1 io2 io3 io4).1 = .error e) :
    (Service.start_device_init st name display_name io0 io1 io2 io3 io4).2 =
      { dm := { last_id := wrap32 (st.dm.last_id + 1),
                device_map := st.dm.device_map, data_dir := st.dm.data_dir },
        fs := st.fs, db_device_ids := st.db_device_ids } := by
  obtain ⟨⟨lastid, dmap, ddir⟩, fs0, db0⟩ := st
  have hm0 : (ddir ++ [build_device_dir_name (wrap32 (lastid + 1)) name]) ∉ fs0 :=
    fun hmem => hfs _ hmem (List.prefix_refl _)
  have hq1 : (ddir ++ [build_device_dir_name (wrap32 (lastid + 1)) name]) <+:
      (ddir ++ [build_device_dir_name (wrap32 (lastid + 1)) name, "module"]) :=
    ⟨["module"], by simp⟩
  have hq2 : (ddir ++ [build_device_dir_name (wrap32 (lastid + 1)) name]) <+:
      (ddir ++ [build_device_dir_name (wrap32 (lastid + 1)) name, "data"]) :=
    ⟨["data"], by simp⟩
  have hq3 : (ddir ++ [build_device_dir_name (wrap32 (lastid + 1)) name]) <+:
      (ddir ++ [build_device_dir_name (wrap32 (lastid + 1)) name, "module",
        "lib" ++ MODULE_FILE_EXT]) :=
    ⟨["module", "lib" ++ MODULE_FILE_EXT], by simp⟩
  have hn1 : (ddir ++ [build_device_dir_name (wrap32 (lastid + 1)) name, "module"]) ∉ fs0 :=
    fun hmem => hfs _ hmem hq1
  have hn2 : (ddir ++ [build_device_dir_name (wrap32 (lastid + 1)) name, "data"]) ∉ fs0 :=
    fun hmem => hfs _ hmem hq2
  have hn3 : (ddir ++ [build_device_dir_name (wrap32 (lastid + 1)) name, "module",
      "lib" ++ MODULE_FILE_EXT]) ∉ fs0 :=
    fun hmem => hfs _ hmem hq3
  have hne10 : (ddir ++ [build_device_dir_name (wrap32 (lastid + 1)) name, "module"]) ≠
      (ddir ++ [build_device_dir_name (wrap32 (lastid + 1)) name]) := by
    intro h
    have hlen := congrArg List.length h
    simp [List.length_append] at hlen
  have hne20 : (ddir ++ [build_device_dir_name (wrap32 (lastid + 1)) name, "data"]) ≠
      (ddir ++ [build_device_dir_name (wrap32 (lastid + 1)) name]) := by
    intro h
    have hlen := congrArg List.length h
    simp [List.length_append] at hlen
  have hne21 : (ddir ++ [build_device_dir_name (wrap32 (lastid + 1)) name, "data"]) ≠
      (ddir ++ [build_device_dir_name (wrap32 (lastid + 1)) name, "module"]) := by
    intro h
    have h2 := List.append_inj_right h rfl
    injection h2 with _ h3
    injection h3 with h4 _
    exact absurd h4 (by decide)
  have hne30 : (ddir ++ [build_device_dir_name (wrap32 (lastid + 1)) name, "module",
      "lib" ++ MODULE_FILE_EXT]) ≠
      (ddir ++ [build_device_dir_name (wrap32 (lastid + 1)) name]) := by
    intro h
    have hlen := congrArg List.length h
    simp [List.length_append] at hlen
  have hne31 : (ddir ++ [build_device_dir_name (wrap32 (lastid + 1)) name, "module",
      "lib" ++ MODULE_FILE_EXT]) ≠
      (ddir ++ [build_device_dir_name (wrap32 (lastid + 1)) name, "module"]) := by
    intro h
    have hlen := congrArg List.length h
    simp [List.length_append] at hlen
  have hne32 : (ddir ++ [build_device_dir_name (wrap32 (lastid + 1)) name, "module",
      "lib" ++ MODULE_FILE_EXT]) ≠
      (ddir ++ [build_device_dir_name (wrap32 (lastid + 1)) name, "data"]) := by
    intro h
    have hlen := congrArg List.length h
    simp [List.length_append] at hlen
  have hb0 : ((ddir ++ [build_device_dir_name (wrap32 (lastid + 1)) name]).isPrefixOf
      (ddir ++ [build_device_dir_name (wrap32 (lastid + 1)) name])) = true :=
    List.isPrefixOf_iff_prefix.mpr (List.prefix_refl _)
  have hb1 : ((ddir ++ [build_device_dir_name (wrap32 (lastid + 1)) name]).isPrefixOf
      (ddir ++ [build_device_dir_name (wrap32 (lastid + 1)) name, "module"])) = true :=
    List.isPrefixOf_iff_prefix.mpr hq1
  have hb2 : ((ddir ++ [build_device_dir_name (wrap32 (lastid + 1)) name]).isPrefixOf
      (ddir ++ [build_device_dir_name (wrap32 (lastid + 1)) name, "data"])) = true :=
    List.isPrefixOf_iff_prefix.mpr hq2
  have hb3 : ((ddir ++ [build_device_dir_name (wrap32 (lastid + 1)) name]).isPrefixOf
      (ddir ++ [build_device_dir_name (wrap32 (lastid + 1)) name, "module",
        "lib" ++ MODULE_FILE_EXT])) = true :=
    List.isPrefixOf_iff_prefix.mpr hq3
  have hkeep : ∀ p ∈ fs0,
      ((ddir ++ [build_device_dir_name (wrap32 (lastid + 1)) name]).isPrefixOf p) = false :=
    fun p hp => Bool.eq_false_iff.mpr
      (fun hb => hfs p hp (List.isPrefixOf_iff_prefix.mp hb))
  have hfilter0 : fs0.filter
      (fun p => !((ddir ++ [build_device_dir_name (wrap32 (lastid + 1)) name]).isPrefixOf p))
      = fs0 := by
    rw [List.filter_eq_self]
    intro p hp
    rw [hkeep p hp]
    rfl
  have hdbf : db0.filter (fun x => x ≠ wrap32 (lastid + 1)) = db0 := by
    rw [List.filter_eq_self]
    intro a ha
    rw [decide_eq_true_eq]
    exact fun he => hdb (he ▸ ha)
  have hrem : mapRemoveI (wrap32 (lastid + 1)) dmap = dmap :=
    mapRemoveI_eq_of_lookup_none dmap hreg
  have hremins : ∀ dev : Device,
      mapRemoveI (wrap32 (lastid + 1)) (mapInsertI (wrap32 (lastid + 1)) dev dmap) = dmap :=
    fun dev => mapRemoveI_mapInsertI_self dev dmap hreg
  cases io0 with
  | true =>
      simp [Service.start_device_init, DeviceManager.start_device_init,
        DeviceManager.inc_last_id, fsCreateDir, fsCreateFile, hfilter0, hdbf, hrem]
      intro a ha he
      exact hdb (he ▸ ha)
  | false =>
  cases io1 with
  | true =>
      simp [Service.start_device_init, DeviceManager.start_device_init,
        DeviceManager.inc_last_id, fsCreateDir, fsCreateFile, hm0,
        List.filter_cons, hb0, hfilter0, hdbf, hrem]
      intro a ha he
      exact hdb (he ▸ ha)
  | false =>
  cases io2 with
  | true =>
      simp [Service.start_device_init, DeviceManager.start_device_init,
        DeviceManager.inc_last_id, fsCreateDir, fsCreateFile, hm0, hn1, hne10,
        List.mem_cons, List.filter_cons, hb0, hb1, hfilter0, hdbf, hrem]
      intro a ha he
      exact hdb (he ▸ ha)
  | false =>
  cases io3 with
  | true =>
      simp [Service.start_device_init, DeviceManager.start_device_init,
        DeviceManager.inc_last_id, fsCreateDir, fsCreateFile, hm0, hn1, hn2, hn3,
        hne10, hne20, hne21, hne30, hne31, hne32, List.mem_cons, List.filter_cons,
        hb0, hb1, hb2, hfilter0, hdbf, hrem]
      intro a ha he
      exact hdb (he ▸ ha)
  | false =>
  cases io4 with
  | true =>
      simp [Service.start_device_init, DeviceManager.start_device_init,
        DeviceManager.inc_last_id, fsCreateDir, fsCreateFile, hm0, hn1, hn2, hn3,
        hne10, hne20, hne21, hne30, hne31, hne32, List.mem_cons, List.filter_cons,
        hb0, hb1, hb2, hb3, hfilter0, hdbf, hremins]
      intro a ha he
      exact hdb (he ▸ ha)
  | false =>
      simp [Service.start_device_init, DeviceManager.start_device_init,
        DeviceManager.inc_last_id, fsCreateDir, fsCreateFile, hm0, hn1, hn2, hn3,
        hne10, hne20, hne21, hne30, hne31, hne32, List.mem_cons] at hres

/-- C2 witness: the theorem applied at a concrete empty initial state with
the data-directory step failing. -/
theorem C2_start_device_init_atomic_witness :
    (Service.start_device_init ⟨⟨0, [], ["root"]⟩, [], []⟩ "n" "N"
        false false true false false).2 =
      { dm := { last_id := 1, device_map := [], data_dir := ["root"] },
        fs := [], db_device_ids := [] } := by
  have h := C2_start_device_init_atomic ⟨⟨0, [], ["root"]⟩, [], []⟩ "n" "N"
    false false true false false .Io (by simp) (by simp) rfl rfl
  have hw : wrap32 (0 + 1) = 1 := by decide
  rw [hw] at h
  exact h

end Monisens
